import Mathlib

/-
Verification of the WiMAX Interactive Network Simulator (src/app.py).

The script binds UI controls to closed-form formulas.  We embed each formula
over the reals, mirroring the source line by line: the coverage-range formula
(line 21), the data-rate formula (line 31), the QoS lookup chain (lines 38-49),
the OFDM subcarrier array (lines 55-58), the slot scheduler (lines 68-70), the
link-quality metrics (lines 79-87) and the animation loop (lines 111-122).
Randomness (numpy uniform / categorical draws) is modelled as an injected
stream of sample values, as the spec's design notes prescribe.
-/

namespace WiMAX

/-- Speed of light, app.py line 18: `c = 3e8`. -/
noncomputable def c : ℝ := 3e8

/-- Wavelength, app.py line 19: `wavelength = c / (freq * 1e9)`; freq is in GHz. -/
noncomputable def wavelength (freq : ℝ) : ℝ := c / (freq * 1e9)

/-- Receiver sensitivity threshold in dBm, app.py line 20: `rx_thresh = -90`. -/
noncomputable def rx_thresh : ℝ := -90

/-- Coverage radius, app.py line 21:
`max_distance = (wavelength / (4 * np.pi)) * 10 ** ((tx_power - rx_thresh) / (10 * path_loss_exp))`. -/
noncomputable def max_distance (freq tx_power path_loss_exp : ℝ) : ℝ :=
  (wavelength freq / (4 * Real.pi)) *
    (10 : ℝ) ^ ((tx_power - rx_thresh) / (10 * path_loss_exp))

/-- Modulation lookup table, app.py line 30:
`bits_per_sym = {"QPSK (2 bits/sym)": 2, "16-QAM (4 bits/sym)": 4, "64-QAM (6 bits/sym)": 6}`. -/
def bits_per_sym : List (String × ℕ) :=
  [("QPSK (2 bits/sym)", 2), ("16-QAM (4 bits/sym)", 4), ("64-QAM (6 bits/sym)", 6)]

/-- Data rate, app.py line 31: `data_rate = bw * 1e6 * bits_per_sym / 7`; bw in MHz,
bits is the bits-per-symbol value selected from the table. -/
noncomputable def data_rate (bw : ℝ) (bits : ℕ) : ℝ := bw * 1e6 * bits / 7

/-- Linear-scale SNR, app.py line 80: `snr_lin = 10 ** (snr_db/10)`. -/
noncomputable def snr_lin (snr_db : ℝ) : ℝ := (10 : ℝ) ^ (snr_db / 10)

/-- Bit error rate (QPSK approximation), app.py line 83: `ber = 0.5 * np.exp(-snr_lin)`. -/
noncomputable def ber (snr_db : ℝ) : ℝ := 0.5 * Real.exp (-snr_lin snr_db)

/-- Throughput, app.py line 84: `throughput = data_rate * (1 - ber)`. -/
noncomputable def throughput (bw : ℝ) (bits : ℕ) (snr_db : ℝ) : ℝ :=
  data_rate bw bits * (1 - ber snr_db)

/-- Delay, app.py line 85: `delay = np.random.uniform(10, 50) / (snr_db + 1)`;
the uniform draw is injected as the parameter r. -/
noncomputable def delay (r snr_db : ℝ) : ℝ := r / (snr_db + 1)

/-- Jitter, app.py line 86: `jitter = np.random.uniform(1, 10) / (snr_db + 1)`;
the uniform draw is injected as the parameter r. -/
noncomputable def jitter (r snr_db : ℝ) : ℝ := r / (snr_db + 1)

/-- Packet loss ratio, app.py line 87: `plr = ber * 100`. -/
noncomputable def plr (snr_db : ℝ) : ℝ := ber snr_db * 100

/-- Service class options of the selectbox, app.py line 36. -/
def service_classes : List String := ["UGS", "rtPS", "nrtPS", "BE"]

/-- Description line chosen by the if/elif chain, app.py lines 38-48. -/
def qos_desc (qos_class : String) : String :=
  if qos_class = "UGS" then
    "✅ Unsolicited Grant Service: Low delay, constant bit rate (e.g. VoIP)"
  else if qos_class = "rtPS" then
    "✅ Real-Time Polling Service: Variable rate, real-time (e.g. video)"
  else if qos_class = "nrtPS" then
    "✅ Non-Real-Time Polling Service: Bursty traffic (e.g. FTP)"
  else
    "✅ Best Effort: No guarantee (e.g. web browsing)"

/-- Metrics table chosen by the if/elif chain, app.py lines 40-49, as an ordered
association list. -/
def qos_metrics (qos_class : String) : List (String × String) :=
  if qos_class = "UGS" then
    [("Delay", "Very Low"), ("Jitter", "Low"), ("Throughput", "High"),
      ("BER", "Low"), ("PLR", "Very Low")]
  else if qos_class = "rtPS" then
    [("Delay", "Low"), ("Jitter", "Medium"), ("Throughput", "Medium-High"),
      ("BER", "Medium"), ("PLR", "Low")]
  else if qos_class = "nrtPS" then
    [("Delay", "High"), ("Jitter", "Medium"), ("Throughput", "Medium"),
      ("BER", "Medium"), ("PLR", "Medium")]
  else
    [("Delay", "Variable"), ("Jitter", "Variable"), ("Throughput", "Low-Medium"),
      ("BER", "High"), ("PLR", "High")]

/-- Subcarrier index array, app.py lines 55-56: `np.arange(-N//2, N//2)` with N = 64. -/
def subcarriers : List ℤ := (List.range 64).map (fun i => (i : ℤ) - 32)

/-- Power allocation array, app.py lines 57-58: `np.zeros(N)` followed by
`power[::4] = 1`, marking every 4th position. -/
def power : List ℚ := (List.range 64).map (fun i => if i % 4 = 0 then 1 else 0)

/-- Traffic class labels, app.py line 68. -/
def traffic_classes : List String := ["UGS", "rtPS", "nrtPS", "BE"]

/-- Number of schedule slots, app.py line 69. -/
def slots : ℕ := 20

/-- Inverse-CDF model of one categorical draw of
`np.random.choice(traffic_classes, p=[0.3, 0.3, 0.2, 0.2])` (app.py line 70):
u is a uniform sample from [0,1), and the cumulative probability thresholds
0.3, 0.6, 0.8 select the class. -/
noncomputable def pickClass (u : ℝ) : String :=
  if u < 0.3 then "UGS" else if u < 0.6 then "rtPS" else if u < 0.8 then "nrtPS" else "BE"

/-- Slot schedule, app.py line 70: 20 independent draws, with the random source
injected as a stream us of uniform samples. -/
noncomputable def schedule (us : ℕ → ℝ) : List String :=
  (List.range slots).map (fun i => pickClass (us i))

/-- Perturbed-SNR BER sample, app.py lines 115-117: `snr_dynamic = snr_db + off`,
`snr_lin_dynamic = 10 ** (snr_dynamic/10)`, `ber_dynamic = 0.5 * np.exp(-snr_lin_dynamic)`. -/
noncomputable def ber_dynamic (snr_db off : ℝ) : ℝ :=
  0.5 * Real.exp (-snr_lin (snr_db + off))

/-- Perturbed-SNR throughput sample, app.py line 118:
`thr_dynamic = data_rate * (1 - ber_dynamic)`; dr is the configured data rate. -/
noncomputable def thr_dynamic (dr snr_db off : ℝ) : ℝ :=
  dr * (1 - ber_dynamic snr_db off)

/-- Animation loop accumulator after n iterations, app.py lines 113-122:
the lists x_vals, ber_vals, thr_vals grow by one element per step; step t
appends t, the perturbed BER, and the perturbed throughput divided by 1e6
(the plot is in Mbps); offs is the injected stream of random offsets. -/
noncomputable def animLoop (dr snr_db : ℝ) (offs : ℕ → ℝ) : ℕ → List ℕ × List ℝ × List ℝ
  | 0 => ([], [], [])
  | n + 1 =>
    let s := animLoop dr snr_db offs n
    (s.1 ++ [n], s.2.1 ++ [ber_dynamic snr_db (offs n)],
      s.2.2 ++ [thr_dynamic dr snr_db (offs n) / 1e6])

/-- Closed form of the animation loop accumulator. -/
theorem animLoop_eq (dr snr_db : ℝ) (offs : ℕ → ℝ) (n : ℕ) :
    animLoop dr snr_db offs n =
      (List.range n,
        (List.range n).map (fun t => ber_dynamic snr_db (offs t)),
        (List.range n).map (fun t => thr_dynamic dr snr_db (offs t) / 1e6)) := by
  induction n with
  | zero => rfl
  | succ k ih => simp [animLoop, ih, List.range_succ]

/-- Element access for a mapped range list. -/
theorem getD_map_range {α : Type} (f : ℕ → α) (d : α) (n i : ℕ) (h : i < n) :
    ((List.range n).map f).getD i d = f i := by
  simp [List.getD_eq_getElem?_getD, List.getElem?_map, List.getElem?_range, h]

/-- C1: the BER computed from the SNR (via dB-to-linear conversion and
`0.5 * exp(-snr_lin)`) is strictly decreasing in SNR; at 0 dB it equals
`exp(-1)/2` (about 0.1839); at 30 dB it equals `exp(-1000)/2`, a positive real
smaller than `2 ^ (-1075)`, half the smallest positive IEEE-754 double, so in
double arithmetic it underflows to 0. -/
theorem c1_ber_strictly_decreasing :
    (∀ a b : ℝ, a < b → ber b < ber a) ∧
    ber 0 = Real.exp (-1) / 2 ∧
    ber 30 = Real.exp (-1000) / 2 ∧
    0 < ber 30 ∧ ber 30 < (2 : ℝ) ^ (-1075 : ℤ) := by
  have hlin : ∀ a b : ℝ, a < b → snr_lin a < snr_lin b := by
    intro a b hab
    exact Real.rpow_lt_rpow_of_exponent_lt (by norm_num) (by linarith)
  have h0 : snr_lin 0 = 1 := by
    simp [snr_lin]
  have h30 : snr_lin 30 = 1000 := by
    have h3 : (30 : ℝ) / 10 = ((3 : ℕ) : ℝ) := by norm_num
    rw [snr_lin, h3, Real.rpow_natCast]
    norm_num
  refine ⟨?_, ?_, ?_, ?_, ?_⟩
  · intro a b hab
    have := Real.exp_lt_exp.mpr (neg_lt_neg (hlin a b hab))
    unfold ber
    nlinarith [this]
  · rw [ber, h0]; ring
  · rw [ber, h30]; ring
  · rw [ber]
    positivity
  · rw [ber, h30]
    have hexp : Real.exp (-1000) < (2 : ℝ) ^ (-1074 : ℤ) := by
      have h2 : ((2 : ℝ) ^ (-1074 : ℤ)) = Real.exp (Real.log 2 * (-1074 : ℤ)) := by
        rw [← Real.rpow_intCast 2 (-1074), Real.rpow_def_of_pos (by norm_num)]
      rw [h2]
      apply Real.exp_lt_exp.mpr
      have hlog := Real.log_two_lt_d9
      have hpos := Real.log_pos (by norm_num : (1 : ℝ) < 2)
      push_cast
      nlinarith
    have hhalf : ((2 : ℝ) ^ (-1074 : ℤ)) / 2 = (2 : ℝ) ^ (-1075 : ℤ) := by
      have : (-1075 : ℤ) = (-1074 : ℤ) - 1 := by norm_num
      rw [this, zpow_sub_one₀ (by norm_num : (2 : ℝ) ≠ 0)]
      ring
    calc 0.5 * Real.exp (-1000) = Real.exp (-1000) / 2 := by ring
      _ < ((2 : ℝ) ^ (-1074 : ℤ)) / 2 :=
          (div_lt_div_iff_of_pos_right (by norm_num)).mpr hexp
      _ = (2 : ℝ) ^ (-1075 : ℤ) := hhalf

/-- Witness for C1 at concrete SNR values 0 and 1. -/
theorem c1_witness : ber 1 < ber 0 :=
  c1_ber_strictly_decreasing.1 0 1 (by norm_num)

/-- C2: for every valid control triple (frequency in [2.3,3.5], transmit power
in [10,40], path-loss exponent in [2,5]), the coverage radius is positive,
strictly increasing in transmit power and strictly decreasing in the path-loss
exponent. -/
theorem c2_max_distance_monotone
    (freq tx n : ℝ)
    (hf1 : 2.3 ≤ freq) (_hf2 : freq ≤ 3.5)
    (ht1 : 10 ≤ tx) (_ht2 : tx ≤ 40)
    (hn1 : 2 ≤ n) (_hn2 : n ≤ 5) :
    0 < max_distance freq tx n ∧
    (∀ tx2, tx < tx2 → tx2 ≤ 40 → max_distance freq tx n < max_distance freq tx2 n) ∧
    (∀ n2, n < n2 → n2 ≤ 5 → max_distance freq tx n2 < max_distance freq tx n) := by
  have hfreq : 0 < freq := by linarith
  have hW : 0 < wavelength freq / (4 * Real.pi) := by
    apply div_pos
    · exact div_pos (by norm_num [c]) (by nlinarith)
    · have := Real.pi_pos; linarith
  refine ⟨?_, ?_, ?_⟩
  · exact mul_pos hW (Real.rpow_pos_of_pos (by norm_num) _)
  · intro tx2 hlt _
    apply mul_lt_mul_of_pos_left _ hW
    apply Real.rpow_lt_rpow_of_exponent_lt (by norm_num)
    exact (div_lt_div_iff_of_pos_right (by linarith : (0:ℝ) < 10 * n)).mpr
      (sub_lt_sub_right hlt _)
  · intro n2 hlt hle
    apply mul_lt_mul_of_pos_left _ hW
    apply Real.rpow_lt_rpow_of_exponent_lt (by norm_num)
    have hnum : 0 < tx - rx_thresh := by simp [rx_thresh]; linarith
    have hd1 : 0 < 10 * n := by linarith
    have hd2 : 0 < 10 * n2 := by linarith
    exact div_lt_div_of_pos_left hnum hd1 (by linarith)

/-- Witness for C2 at frequency 2.5 GHz, transmit power 20 and 30 dBm,
path-loss exponent 3.5 and 4. -/
theorem c2_witness :
    0 < max_distance 2.5 20 3.5 ∧
    max_distance 2.5 20 3.5 < max_distance 2.5 30 3.5 ∧
    max_distance 2.5 20 4 < max_distance 2.5 20 3.5 := by
  obtain ⟨h1, h2, h3⟩ :=
    c2_max_distance_monotone 2.5 20 3.5 (by norm_num) (by norm_num) (by norm_num)
      (by norm_num) (by norm_num) (by norm_num)
  exact ⟨h1, h2 30 (by norm_num) (by norm_num), h3 4 (by norm_num) (by norm_num)⟩

/-- C3: the modulation table carries exactly the bits-per-symbol values 2, 4, 6;
the data rate `bw * 1e6 * bits / 7` is strictly increasing in bandwidth and in
bits-per-symbol; at bandwidth 10 MHz with 16-QAM (4 bits/symbol) it equals
`10e6 * 4 / 7` (about 5.714 Mbps). -/
theorem c3_data_rate_increasing :
    bits_per_sym.map Prod.snd = [2, 4, 6] ∧
    (∀ (bw bw2 : ℝ) (bits : ℕ), 0 < bits → 0 < bw → bw < bw2 →
      data_rate bw bits < data_rate bw2 bits) ∧
    (∀ (bw : ℝ) (bits bits2 : ℕ), 0 < bw → bits < bits2 →
      data_rate bw bits < data_rate bw bits2) ∧
    data_rate 10 4 = 10e6 * 4 / 7 := by
  refine ⟨rfl, ?_, ?_, ?_⟩
  · intro bw bw2 bits hbits hbw hlt
    unfold data_rate
    have hb : (0 : ℝ) < (bits : ℝ) := by exact_mod_cast hbits
    apply div_lt_div_of_pos_right ?_ (by norm_num)
    nlinarith
  · intro bw bits bits2 hbw hlt
    unfold data_rate
    have hb : (bits : ℝ) < (bits2 : ℝ) := by exact_mod_cast hlt
    apply div_lt_div_of_pos_right ?_ (by norm_num)
    nlinarith
  · unfold data_rate
    norm_num

/-- Witness for C3: bandwidth 10 vs 20 MHz at QPSK, and QPSK vs 16-QAM at 10 MHz. -/
theorem c3_witness :
    data_rate 10 2 < data_rate 20 2 ∧ data_rate 10 2 < data_rate 10 4 :=
  ⟨c3_data_rate_increasing.2.1 10 20 2 (by norm_num) (by norm_num) (by norm_num),
   c3_data_rate_increasing.2.2.1 10 2 4 (by norm_num) (by norm_num)⟩

/-- C4: for every SNR the throughput metric equals `data_rate * (1 - ber snr)`
with ber the value computed by the link-quality evaluator, and as the BER tends
to 0 the throughput `data_rate * (1 - b)` tends to the data rate. -/
theorem c4_throughput_formula (bw : ℝ) (bits : ℕ) :
    (∀ snr_db : ℝ, throughput bw bits snr_db = data_rate bw bits * (1 - ber snr_db)) ∧
    Filter.Tendsto (fun b : ℝ => data_rate bw bits * (1 - b))
      (nhds 0) (nhds (data_rate bw bits)) := by
  refine ⟨fun _ => rfl, ?_⟩
  have hcont : Continuous fun b : ℝ => data_rate bw bits * (1 - b) :=
    continuous_const.mul (continuous_const.sub continuous_id)
  have h := hcont.tendsto 0
  simpa using h

/-- C6: the QoS descriptor lookup, over exactly the four selectbox classes,
returns a non-empty description and a ratings table with exactly the five keys
Delay, Jitter, Throughput, BER, PLR. -/
theorem c6_qos_lookup_total (cls : String) (hcls : cls ∈ service_classes) :
    qos_desc cls ≠ "" ∧
    (qos_metrics cls).map Prod.fst = ["Delay", "Jitter", "Throughput", "BER", "PLR"] ∧
    (qos_metrics cls).length = 5 := by
  fin_cases hcls <;> exact ⟨by decide, by decide, by decide⟩

/-- Witness for C6 at the class UGS. -/
theorem c6_witness :
    ("UGS" ∈ service_classes) ∧ qos_desc "UGS" ≠ "" ∧
    (qos_metrics "UGS").map Prod.fst = ["Delay", "Jitter", "Throughput", "BER", "PLR"] :=
  ⟨by decide, (c6_qos_lookup_total "UGS" (by decide)).1,
    (c6_qos_lookup_total "UGS" (by decide)).2.1⟩

/-- C7: the subcarrier array has length 64 and is indexed from -32 to 31; the
power array has length 64, carries 1 at every 4th position and 0 elsewhere, and
has exactly 16 active entries. -/
theorem c7_subcarrier_allocation :
    subcarriers.length = 64 ∧
    (∀ i, i < 64 → subcarriers.getD i 0 = (i : ℤ) - 32) ∧
    subcarriers.getD 0 0 = -32 ∧ subcarriers.getD 63 0 = 31 ∧
    power.length = 64 ∧
    (∀ i, i < 64 → power.getD i 0 = if i % 4 = 0 then 1 else 0) ∧
    power.count 1 = 16 := by
  refine ⟨by decide, ?_, by decide, by decide, by decide, ?_, by decide⟩
  · intro i h
    exact getD_map_range (fun i => (i : ℤ) - 32) 0 64 i h
  · intro i h
    exact getD_map_range (fun i => if i % 4 = 0 then (1 : ℚ) else 0) 0 64 i h

/-- Witness for C7 at the positions 0, 4 and 5. -/
theorem c7_witness :
    subcarriers.getD 0 0 = (0 : ℤ) - 32 ∧ power.getD 4 0 = 1 ∧ power.getD 5 0 = 0 := by
  refine ⟨c7_subcarrier_allocation.2.1 0 (by decide), ?_, ?_⟩
  · have h := c7_subcarrier_allocation.2.2.2.2.2.1 4 (by decide)
    simpa using h
  · have h := c7_subcarrier_allocation.2.2.2.2.2.1 5 (by decide)
    simpa using h

/-- C5 (amended): every animation run appends exactly 30 triples; the time
values are 0..29 in strictly increasing order; at each step the configured SNR
is perturbed by the step's random offset (a uniform draw from [-2, 2]) and the
appended BER is recomputed from the perturbed SNR by the evaluator's formula,
while the appended throughput is the recomputed evaluator value divided by 1e6
(the loop stores it in Mbps). -/
theorem c5_animation_run (dr snr_db : ℝ) (offs : ℕ → ℝ)
    (_hoffs : ∀ i, -2 ≤ offs i ∧ offs i ≤ 2) :
    (animLoop dr snr_db offs 30).1.length = 30 ∧
    (animLoop dr snr_db offs 30).2.1.length = 30 ∧
    (animLoop dr snr_db offs 30).2.2.length = 30 ∧
    (animLoop dr snr_db offs 30).1 = List.range 30 ∧
    (animLoop dr snr_db offs 30).1.Pairwise (· < ·) ∧
    (∀ i, i < 30 →
      (animLoop dr snr_db offs 30).2.1.getD i 0 =
        0.5 * Real.exp (-snr_lin (snr_db + offs i)) ∧
      (animLoop dr snr_db offs 30).2.2.getD i 0 =
        dr * (1 - ber_dynamic snr_db (offs i)) / 1e6) := by
  rw [animLoop_eq]
  refine ⟨by simp, by simp, by simp, rfl, List.pairwise_lt_range 30, ?_⟩
  intro i h
  constructor
  · rw [getD_map_range _ _ 30 i h]
    rfl
  · rw [getD_map_range _ _ 30 i h]
    rfl

/-- Witness for C5 with data rate 1, SNR 10 dB and all offsets 0. -/
theorem c5_witness :
    (animLoop 1 10 (fun _ => 0) 30).1.length = 30 ∧
    (animLoop 1 10 (fun _ => 0) 30).2.1.getD 0 0 =
      0.5 * Real.exp (-snr_lin (10 + 0)) := by
  have h := c5_animation_run 1 10 (fun _ => 0) (by intro i; constructor <;> norm_num)
  exact ⟨h.1, (h.2.2.2.2.2 0 (by norm_num)).1⟩

/-- C5 counterexample: the claim as stated says the appended throughput values
equal the evaluator's `data_rate * (1 - ber)` directly; with bandwidth 7 MHz,
QPSK (data rate 2e6), configured SNR 0 dB and zero offsets, the first appended
throughput value differs from it, because the loop divides by 1e6. -/
theorem c5_counterexample :
    (animLoop (data_rate 7 2) 0 (fun _ => 0) 30).2.2.getD 0 0 ≠
      data_rate 7 2 * (1 - ber (0 + 0)) := by
  rw [animLoop_eq, getD_map_range _ _ 30 0 (by norm_num)]
  have hlin : snr_lin 0 = 1 := by simp [snr_lin]
  have hexp : Real.exp (-1) < 1 := Real.exp_lt_one_iff.mpr (by norm_num)
  have hpos : 0 < Real.exp (-1) := Real.exp_pos _
  intro h
  rw [thr_dynamic, ber_dynamic, ber, data_rate] at h
  norm_num [hlin] at h
  nlinarith [h]

/-- C8: for every outcome of the injected random stream, the slot schedule has
length exactly 20 and every entry is one of the four traffic classes; a single
draw from a uniform sample u in [0,1) picks UGS, rtPS, nrtPS, BE on the
successive intervals of lengths 0.3, 0.3, 0.2, 0.2. -/
theorem c8_schedule (us : ℕ → ℝ) :
    (schedule us).length = 20 ∧
    (∀ s ∈ schedule us, s ∈ traffic_classes) ∧
    (∀ u : ℝ, 0 ≤ u → u < 1 →
      (pickClass u = "UGS" ↔ u < 0.3) ∧
      (pickClass u = "rtPS" ↔ 0.3 ≤ u ∧ u < 0.6) ∧
      (pickClass u = "nrtPS" ↔ 0.6 ≤ u ∧ u < 0.8) ∧
      (pickClass u = "BE" ↔ 0.8 ≤ u)) := by
  refine ⟨by simp [schedule, slots], ?_, ?_⟩
  · intro s hs
    simp only [schedule, List.mem_map] at hs
    obtain ⟨i, -, rfl⟩ := hs
    unfold pickClass traffic_classes
    split_ifs <;> simp
  · intro u _ _
    unfold pickClass
    split_ifs with ha hb hc
    · refine ⟨by simpa using ha, ?_, ?_, ?_⟩
      · simp only [show ("UGS" : String) ≠ "rtPS" by decide, false_iff]
        rintro ⟨h, -⟩; linarith
      · simp only [show ("UGS" : String) ≠ "nrtPS" by decide, false_iff]
        rintro ⟨h, -⟩; linarith
      · simp only [show ("UGS" : String) ≠ "BE" by decide, false_iff]
        intro h; linarith
    · have ha2 := not_lt.mp ha
      refine ⟨by simpa using ha, ?_, ?_, ?_⟩
      · simpa using ⟨ha2, hb⟩
      · simp only [show ("rtPS" : String) ≠ "nrtPS" by decide, false_iff]
        rintro ⟨h, -⟩; linarith
      · simp only [show ("rtPS" : String) ≠ "BE" by decide, false_iff]
        intro h; linarith
    · have hb2 := not_lt.mp hb
      refine ⟨by simpa using ha, ?_, ?_, ?_⟩
      · simp only [show ("nrtPS" : String) ≠ "rtPS" by decide, false_iff]
        rintro ⟨-, h⟩; linarith
      · simpa using ⟨hb2, hc⟩
      · simp only [show ("nrtPS" : String) ≠ "BE" by decide, false_iff]
        intro h; linarith
    · have hc2 := not_lt.mp hc
      refine ⟨by simpa using ha, ?_, ?_, by simpa using hc2⟩
      · simp only [show ("BE" : String) ≠ "rtPS" by decide, false_iff]
        rintro ⟨-, h⟩; linarith
      · simp only [show ("BE" : String) ≠ "nrtPS" by decide, false_iff]
        rintro ⟨-, h⟩; linarith

/-- Witness for C8 at the constant stream 0.5. -/
theorem c8_witness :
    (schedule (fun _ => 0.5)).length = 20 ∧ (pickClass 0.5 = "rtPS" ↔ 0.3 ≤ (0.5 : ℝ) ∧ (0.5 : ℝ) < 0.6) :=
  ⟨(c8_schedule (fun _ => 0.5)).1,
    ((c8_schedule (fun _ => 0.5)).2.2 0.5 (by norm_num) (by norm_num)).2.1⟩

/-- C9: the denominator snr + 1 of the delay and jitter formulas vanishes only
at SNR = -1; for every SNR in the control range [0, 30] the denominator is at
least 1, so both divisions are well-defined and recover the numerator. -/
theorem c9_delay_jitter_safe :
    (∀ snr_db : ℝ, snr_db + 1 = 0 ↔ snr_db = -1) ∧
    (∀ snr_db : ℝ, 0 ≤ snr_db → snr_db ≤ 30 →
      1 ≤ snr_db + 1 ∧ snr_db + 1 ≠ 0 ∧
      ∀ r : ℝ, delay r snr_db * (snr_db + 1) = r ∧ jitter r snr_db * (snr_db + 1) = r) := by
  constructor
  · intro s
    constructor <;> intro h <;> linarith
  · intro s h0 _
    have hne : s + 1 ≠ 0 := by intro h; linarith
    refine ⟨by linarith, hne, fun r => ⟨?_, ?_⟩⟩
    · rw [delay, div_mul_cancel₀ r hne]
    · rw [jitter, div_mul_cancel₀ r hne]

/-- Witness for C9 at SNR 10 dB and numerator draw 20. -/
theorem c9_witness :
    1 ≤ (10 : ℝ) + 1 ∧ delay 20 10 * (10 + 1) = 20 := by
  have h := c9_delay_jitter_safe.2 10 (by norm_num) (by norm_num)
  exact ⟨h.1, (h.2.2 20).1⟩

/-- C10: the QoS lookup ends in a catch-all branch: any class identifier other
than UGS, rtPS and nrtPS — not only the literal BE — selects the Best Effort
description and ratings table, so the lookup never fails. -/
theorem c10_catch_all (cls : String)
    (h1 : cls ≠ "UGS") (h2 : cls ≠ "rtPS") (h3 : cls ≠ "nrtPS") :
    qos_desc cls = qos_desc "BE" ∧ qos_metrics cls = qos_metrics "BE" := by
  refine ⟨?_, ?_⟩
  · rw [qos_desc, if_neg h1, if_neg h2, if_neg h3]
    decide
  · rw [qos_metrics, if_neg h1, if_neg h2, if_neg h3]
    decide

/-- Witness for C10 at the out-of-scope identifier WFQ. -/
theorem c10_witness :
    qos_desc "WFQ" = qos_desc "BE" ∧ qos_metrics "WFQ" = qos_metrics "BE" :=
  c10_catch_all "WFQ" (by decide) (by decide) (by decide)

end WiMAX
